import Mathlib

/-!
# Verification of the four-meme-tracker ingestion/classification engine

This file gives a shallow embedding of the event-ingestion and
classification core of the `four-meme-tracker` repository and settles the
frozen claims about it.

Conventions of the embedding:
* JS strings that hold decimal big integers (`BigInt(x).toString()`) are
  modeled as `Nat`/`Int`; all arithmetic in the source is exact `BigInt`
  arithmetic, so no overflow modeling is needed.
* Addresses are modeled as `String`; `toLowerCase()` is `jsToLower`.
* JS `Set` objects (insertion-ordered, duplicate-free) are modeled as
  `List String` with a membership-guarded append (`jsSetAdd`).
* JS `Map` objects (insertion-ordered) are modeled as association lists
  `List (String × α)` with insertion-order preserving `mapSet`.
* Fields that the source code may leave `undefined` and later tests with
  a truthiness check (`!tokenInfo.trades`) are modeled as `Option`.
  Numeric fields that the source always reads through `x || 0` are
  modeled as plain numbers defaulting to `0`, which has the same
  semantics because `0 || d = d` in JS.
* ISO timestamp strings produced by `new Date().toISOString()` and parsed
  back with `new Date(s)` are modeled as `Nat` seconds since the epoch,
  threaded through as an explicit `now` parameter.
* Display-only fields (`formattedAmount`, `percentage`, flag message
  strings) and console logging are omitted: they are written but never
  read back by any logic covered by the claims.
* Network calls (`getTransactionReceipt`, `getTokenData`) are passed in
  as explicit function arguments (oracles).
-/

namespace FourMeme

/-- Addresses are hex strings; the code normalizes with `toLowerCase()`. -/
abbrev Address := String

/-- JS `toLowerCase()` on the ASCII strings involved (addresses, hex
topics): lower every character. (`String.toLower` itself is opaque to
kernel reduction, so the map is spelled out on the character list.) -/
def jsToLower (s : String) : String := String.mk (s.data.map Char.toLower)

/-! ## JS collection primitives -/

/-- JS `Set.prototype.add`: appends at the end unless already present
(JS sets are insertion-ordered and duplicate-free). -/
def jsSetAdd (s : List String) (x : String) : List String :=
  if s.contains x then s else s ++ [x]

/-- JS `Map.prototype.get` (`none` models `undefined`): the value at the
first matching key. -/
def mapGet : List (String × α) -> String -> Option α
  | [], _ => none
  | (k', v) :: rest, k => if k' == k then some v else mapGet rest k

/-- JS `Map.prototype.has`. -/
def mapHas : List (String × α) -> String -> Bool
  | [], _ => false
  | (k', _) :: rest, k => k' == k || mapHas rest k

/-- JS `Map.prototype.set`: replaces in place if the key is present,
otherwise appends at the end (JS maps are insertion-ordered). -/
def mapSet (m : List (String × α)) (k : String) (v : α) : List (String × α) :=
  match m with
  | [] => [(k, v)]
  | (k', v') :: rest =>
    if k' == k then (k, v) :: rest else (k', v') :: mapSet rest k v

/-! ## Configuration constants (src/src/config/index.js) -/

def FOUR_MEME_ADDRESS : Address := "0x5c952063c7fc8610FFDB798152D69F0B9550762b"

def ZERO_ADDRESS : Address := "0x0000000000000000000000000000000000000000"

def TRANSFER_EVENT_SIGNATURE : String :=
  "0xddf252ad1be2c89b69c2b068fc378daa952ba7f163c4a11628f55a4df523b3ef"

/-- `STANDARD_TOTAL_SUPPLY = '1000000000000000000000000000'`
(1 billion with 18 decimals). -/
def STANDARD_TOTAL_SUPPLY : Nat := 1000000000000000000000000000

def WBNB_ADDRESS : Address := "0xbb4cdb9cbd36b01bd1cbaebf2de08d9173bc095c"

/-- `KNOWN_DEX_CONTRACTS` (identical in src/main.js and
src/src/services/tokenProcessor.js), already lowercased at definition. -/
def KNOWN_DEX_CONTRACTS : List Address :=
  [ "0x7fa69aa3cd15409f424f3bf91576c97f78166a12"
  , "0x10ed43c718714eb63d5aa57b78b54704e256024e"
  , "0x13f4ea83d0bd40e75c8222255bc855a974568dd4"
  , "0xcf0febd3f17cef5b47b0cd257acf6025c5bff3b7"
  , "0x05ff2b0db69458a0750badebc4f9e13add608c7f"
  , "0x2b6e6e4def77583229299cf386438a227e683b28"
  , "0x1de460f363af910f51726def188f9004276bf4bc" ]

/-- `PLATFORM_CONTRACTS` (identical in src/main.js and tokenProcessor.js):
platform name keyed lists of contract addresses, lowercased. -/
def PLATFORM_CONTRACTS : List (String × List Address) :=
  [ ("four.meme",
      [ "0x5c952063c7fc8610ffdb798152d69f0b9550762b"
      , "0x1de460f363af910f51726def188f9004276bf4bc" ])
  , ("gmgn.ai",
      [ "0x2b6e6e4def77583229299cf386438a227e683b28" ]) ]

/-! ## Log events

A decoded `Transfer` log as produced by the viem filter: the `args`
fields may be absent (`none` models a JS `undefined`, or a falsy decoded
value where noted at the use sites). -/

structure TransferArgs where
  from' : Option Address
  to' : Option Address
  value : Option Nat
  deriving Repr, DecidableEq

structure Log where
  address : Address
  transactionHash : String
  blockNumber : Nat
  logIndex : Nat
  args : TransferArgs
  /-- Raw topic strings; only `topics[0]` is inspected (receipt scans). -/
  topics : List String := []
  deriving Repr, DecidableEq

/-! ## Token records -/

/-- A trade record pushed onto `tokenInfo.trades`. Buy records carry
`buyer`, sell records carry `seller` (the other is `undefined`).
`formattedAmount` (display only) is omitted; `timestamp` is seconds. -/
structure Trade where
  type : String
  amount : Nat
  buyer : Option Address := none
  seller : Option Address := none
  txHash : String
  blockNumber : Nat
  timestamp : Nat
  isCreator : Bool := false
  deriving Repr, DecidableEq

structure WalletTransfer where
  from' : Address
  to' : Address
  amount : Nat
  txHash : String
  blockNumber : Nat
  timestamp : Nat
  deriving Repr, DecidableEq

/-- A cross-platform trade record; `timeSinceFirstBuy` is stored in
MINUTES by `processCrossPlatformTrade` (`Math.floor(seconds/60)`). -/
structure CrossPlatformTrade where
  from' : Address
  to' : Address
  platform : String
  amount : Nat
  txHash : String
  blockNumber : Nat
  timestamp : Nat
  timeSinceFirstBuy : Nat
  deriving Repr, DecidableEq

/-- `calculateDevHolding` result (src/src/tokenDetector.js); the
`percentage`/`formattedAmount` display fields are omitted. -/
structure DevHolding where
  amount : Nat
  error : Option String := none
  deriving Repr, DecidableEq

/-- Result of `getTokenData` (metadata probe), minus display fields.
`errors` holds the `field` names that failed. -/
structure TokenData where
  name : Option String
  symbol : Option String
  errors : Option (List String) := none
  deriving Repr, DecidableEq

/-- Sub-record copies (`mintLog` / `fourMemeTransfer`) stored on a
detected token. -/
structure LogRef where
  from' : Option Address
  to' : Option Address
  value : Option Nat
  logIndex : Nat
  deriving Repr, DecidableEq

/-- The live token record (`tokenInfo`), created by the Detector and
mutated by the Classifier. JS leaves the trade-tracking fields
`undefined` until `initializeTokenTradeTracking` runs; `trades`,
`walletTransfers` and `crossPlatformTrades` presence is tested with
truthiness so they are `Option`; the numeric fields are only ever read
through `x || 0` (or after initialization) so they default to `0`.
The source reads `creator.toLowerCase()` without a guard; `creator` is
`Option` because the detector stores the last token event's `to`
argument, which can be absent (all claims concern defined creators). -/
structure TokenInfo where
  tokenAddress : Address
  name : Option String := none
  symbol : Option String := none
  totalSupply : Nat := 0
  currentSupply : Int := 0
  creator : Option Address := none
  mintRecipient : Option Address := none
  transactionHash : String := ""
  blockNumber : Nat := 0
  value : Option Nat := none
  dataErrors : Option (List String) := none
  devHolding : DevHolding := { amount := 0 }
  mintLog : Option LogRef := none
  fourMemeTransfer : Option LogRef := none
  error : Option String := none
  trades : Option (List Trade) := none
  buyCount : Nat := 0
  sellCount : Nat := 0
  uniqueBuyers : List Address := []
  uniqueSellers : List Address := []
  totalBuyVolume : Int := 0
  totalSellVolume : Int := 0
  devHoldings : Int := 0
  walletTransfers : Option (List WalletTransfer) := none
  crossPlatformTrades : Option (List CrossPlatformTrade) := none
  deriving Repr, DecidableEq

/-- `tokenInfo.creator.toLowerCase()` (throws in JS when `creator` is
`undefined`; every use site in the claims has a defined creator, and the
comparisons below are against `some _`, so the `none` case never equals). -/
def creatorLower (t : TokenInfo) : Option Address :=
  t.creator.map jsToLower


/-! ## src/src/services/tokenProcessor.js -/

namespace TokenProcessor

/-- `FOUR_MEME_RELATED_ADDRESSES` of tokenProcessor.js: the literal main
contract, `FOUR_MEME_ADDRESS` from config (the same address, deduplicated
by the JS `Set`), and the helper contract, all lowercased. -/
def FOUR_MEME_RELATED_ADDRESSES : List Address :=
  [ "0x5c952063c7fc8610ffdb798152d69f0b9550762b"
  , "0x48735904455eda3aa9a0c9e43ee9999c795e30b9" ]

/-- `groupLogsByTransaction(logs)` (tokenProcessor.js lines 115-127; the
same function appears verbatim in the part_001 entry point): fold the
logs into an insertion-ordered map from transaction hash to the list of
its logs, pushing each log at the end of its bucket. -/
def groupInsert (m : List (String × List Log)) (tx : String) (l : Log) :
    List (String × List Log) :=
  match m with
  | [] => [(tx, [l])]
  | (k, ls) :: rest =>
    if k == tx then (k, ls ++ [l]) :: rest else (k, ls) :: groupInsert rest tx l

def groupLogsByTransaction (logs : List Log) : List (String × List Log) :=
  logs.foldl (fun m l => groupInsert m l.transactionHash l) []

/-- `initializeTokenTradeTracking(tokenInfo)` (lines 260-275): seed the
trade-tracking fields on first use. `buyCount` starts at 1 for the
creator's initial tokens, `uniqueBuyers` starts with the lowercased
creator, `totalBuyVolume` and `devHoldings` start at
`tokenInfo.totalSupply || "0"`. -/
def initializeTokenTradeTracking (t : TokenInfo) : TokenInfo :=
  match t.trades with
  | some _ => t
  | none =>
    { t with
      trades := some []
      buyCount := 1
      sellCount := 0
      uniqueBuyers := (creatorLower t).toList
      uniqueSellers := []
      totalBuyVolume := (t.totalSupply : Int)
      totalSellVolume := 0
      devHoldings := (t.totalSupply : Int) }

/-- `processBuyTransaction` (lines 289-331): increment `buyCount`, add
the buyer, add the amount to `totalBuyVolume`, credit `devHoldings` when
the buyer is the creator, and push a buy `Trade` record. The source also
adds the token address to the caller's `updatedTokens` set; that effect
is returned as the second component. -/
def processBuyTransaction (t : TokenInfo) (toAddress : Address)
    (tokenAmount : Nat) (txHash : String) (blockNumber : Nat) (now : Nat) :
    TokenInfo × Address :=
  let t := { t with
    buyCount := t.buyCount + 1
    uniqueBuyers := jsSetAdd t.uniqueBuyers toAddress
    totalBuyVolume := t.totalBuyVolume + (tokenAmount : Int) }
  let t :=
    if some toAddress == creatorLower t then
      { t with devHoldings := t.devHoldings + (tokenAmount : Int) }
    else t
  let rec' : Trade :=
    { type := "buy", amount := tokenAmount, buyer := some toAddress
      txHash := txHash, blockNumber := blockNumber, timestamp := now
      isCreator := some toAddress == creatorLower t }
  ({ t with trades := some (t.trades.getD [] ++ [rec']) }, t.tokenAddress)

/-- `processSellTransaction` (lines 345-391): symmetric to the buy case;
debits `devHoldings` when the seller is the creator. -/
def processSellTransaction (t : TokenInfo) (fromAddress : Address)
    (tokenAmount : Nat) (txHash : String) (blockNumber : Nat) (now : Nat) :
    TokenInfo × Address :=
  let t := { t with
    sellCount := t.sellCount + 1
    uniqueSellers := jsSetAdd t.uniqueSellers fromAddress
    totalSellVolume := t.totalSellVolume + (tokenAmount : Int) }
  let t :=
    if some fromAddress == creatorLower t then
      { t with devHoldings := t.devHoldings - (tokenAmount : Int) }
    else t
  let rec' : Trade :=
    { type := "sell", amount := tokenAmount, seller := some fromAddress
      txHash := txHash, blockNumber := blockNumber, timestamp := now
      isCreator := some fromAddress == creatorLower t }
  ({ t with trades := some (t.trades.getD [] ++ [rec']) }, t.tokenAddress)

/-- The platform lookup at the top of `processCrossPlatformTrade`
(lines 523-529): the first entry of `PLATFORM_CONTRACTS` whose address
list contains `toAddress`. -/
def platformOf (toAddress : Address) : Option String :=
  (PLATFORM_CONTRACTS.find? (fun p => p.2.contains toAddress)).map (fun p => p.1)

/-- `processCrossPlatformTrade` (lines 518-593): when the destination
belongs to a non-four.meme platform and the source has prior buy trades
on this token, push a `CrossPlatformTrade` record (with
`timeSinceFirstBuy` in minutes) and return the updated record; in every
other case return `null`. The source reads `tokenInfo.trades` without a
guard (all callers run after initialization), modeled with `getD []`. -/
def processCrossPlatformTrade (t : TokenInfo) (fromAddress toAddress : Address)
    (tokenAmount : Nat) (blockNumber : Nat) (txHash : String) (now : Nat) :
    Option TokenInfo :=
  match platformOf toAddress with
  | none => none
  | some platform =>
    if platform != "four.meme" then
      let buyerTrades := (t.trades.getD []).filter (fun tr =>
        tr.type == "buy" &&
          tr.buyer.map jsToLower == some (jsToLower fromAddress))
      match buyerTrades with
      | [] => none
      | firstBuy :: _ =>
        let timeSinceFirstBuy := now - firstBuy.timestamp
        let rec' : CrossPlatformTrade :=
          { from' := fromAddress, to' := toAddress, platform := platform
            amount := tokenAmount, txHash := txHash
            blockNumber := blockNumber, timestamp := now
            timeSinceFirstBuy := timeSinceFirstBuy / 60 }
        some { t with
          crossPlatformTrades := some (t.crossPlatformTrades.getD [] ++ [rec']) }
    else none

/-- The WBNB scan on a fetched transaction receipt (lines 435-440):
some receipt log is a `Transfer` of the WBNB contract. -/
def isWBNBTransferIn (receiptLogs : List Log) : Bool :=
  receiptLogs.any (fun txLog =>
    (jsToLower txLog.address) == WBNB_ADDRESS &&
      txLog.topics.head? == some TRANSFER_EVENT_SIGNATURE)

/-- `processWalletTransfer` (lines 406-504). The transaction receipt
fetched through the client is passed in as `receiptLogs`. Returns the
pair `{ tokenInfo, updated }`. -/
def processWalletTransfer (t : TokenInfo) (fromAddress toAddress : Address)
    (tokenAmount : Nat) (txHash : String) (blockNumber : Nat)
    (receiptLogs : List Log) (now : Nat) : TokenInfo × Bool :=
  if !FOUR_MEME_RELATED_ADDRESSES.contains fromAddress &&
      !FOUR_MEME_RELATED_ADDRESSES.contains toAddress then
    let (t, updated) :=
      if some fromAddress == creatorLower t then
        ({ t with devHoldings := t.devHoldings - (tokenAmount : Int) }, true)
      else if some toAddress == creatorLower t then
        ({ t with devHoldings := t.devHoldings + (tokenAmount : Int) }, true)
      else (t, false)
    let isDexContract := KNOWN_DEX_CONTRACTS.contains toAddress
    let isWBNBTransferInTx := isWBNBTransferIn receiptLogs
    if isDexContract then
      match processCrossPlatformTrade t fromAddress toAddress tokenAmount
          blockNumber txHash now with
      | some t' => (t', true)
      | none => (t, updated)
    else if !isDexContract && !isWBNBTransferInTx then
      let transfer : WalletTransfer :=
        { from' := fromAddress, to' := toAddress, amount := tokenAmount
          txHash := txHash, blockNumber := blockNumber, timestamp := now }
      ({ t with walletTransfers := some (t.walletTransfers.getD [] ++ [transfer]) },
        true)
    else (t, updated)
  else (t, false)

/-- The per-log guards of `processTradesInTransaction` (lines 183-206):
a log reaches the classification dispatch exactly when its token is
tracked, its decoded `from`/`to`/`value` arguments are present and
truthy, neither side is a non-main four.meme related address, and the
amount is non-zero. Each guard uses `continue`, skipping only that log.
This is the control-flow projection of the loop: it returns the logs
that reach the dispatch, in order. -/
def tradeGuardsPass (trackedAddrs : List Address) (l : Log) : Bool :=
  trackedAddrs.contains (jsToLower l.address) &&
    l.args.from'.isSome && l.args.to'.isSome &&
    !(l.args.value.getD 0 == 0) &&
    (match l.args.from'.map jsToLower, l.args.to'.map jsToLower with
     | some fromAddress, some toAddress =>
       !((fromAddress != (jsToLower FOUR_MEME_ADDRESS) &&
            FOUR_MEME_RELATED_ADDRESSES.contains fromAddress) ||
         (toAddress != (jsToLower FOUR_MEME_ADDRESS) &&
            FOUR_MEME_RELATED_ADDRESSES.contains toAddress))
     | _, _ => false)

def logsReachingDispatch (trackedAddrs : List Address) (txLogs : List Log) :
    List Log :=
  txLogs.filter (tradeGuardsPass trackedAddrs)

end TokenProcessor


/-! ## src/src/tokenDetector.js -/

namespace Detector

/-- Stable insertion into a list ascending on `logIndex`; an element is
placed before the first strictly larger key, so the relative order of
equal keys is preserved. -/
def sortInsert (l : Log) : List Log -> List Log
  | [] => [l]
  | x :: xs =>
    if l.logIndex <= x.logIndex then l :: x :: xs else x :: sortInsert l xs

/-- `[...tokenEvents].sort((a, b) => Number(a.logIndex) - Number(b.logIndex))`
(tokenDetector.js lines 157-159): JS `Array.sort` is stable, modeled by a
stable insertion sort ascending on `logIndex`. -/
def sortByLogIndex : List Log -> List Log
  | [] => []
  | x :: xs => sortInsert x (sortByLogIndex xs)

/-- `calculateDevHolding` (tokenDetector.js lines 25-66): the value of the
transfer of this token from four.meme to the creator, or `0` when no such
transfer (or no truthy `value`) is found. When `creatorAddress` is
`undefined` the JS callback throws on `creatorAddress.toLowerCase()` and
the surrounding `catch` returns amount `'0'` with an `error` field. -/
def calculateDevHolding (txLogs : List Log) (tokenAddress : Address)
    (creatorAddress : Option Address) : DevHolding :=
  match creatorAddress with
  | none => { amount := 0, error := some "creator address undefined" }
  | some creator =>
    match txLogs.find? (fun l =>
        (jsToLower l.address) == (jsToLower tokenAddress) &&
        l.args.from'.map jsToLower == some (jsToLower FOUR_MEME_ADDRESS) &&
        l.args.to'.map jsToLower == some (jsToLower creator)) with
    | none => { amount := 0 }
    | some devTransfer =>
      -- `!devTransfer.args.value` is also truthy for a decoded `0n`, and
      -- that branch returns amount '0', which coincides with the value.
      match devTransfer.args.value with
      | none => { amount := 0 }
      | some v => { amount := v }

/-- The candidate loop of `detectNewToken` (lines 132-264) over the
transfers into four.meme: skip contracts already tracked and contracts
without a mint log in the same transaction; otherwise infer the creator
from the last token event (sorted by log index), probe metadata through
`gtd` (the `getTokenData` oracle; `.error` is the thrown-exception path),
store the new record in `seenTokens` and return it. -/
def detectLoop (txLogs : List Log) (txHash : String) (blockNumber : Nat)
    (gtd : Address -> Except String TokenData) :
    List Log -> List (Address × TokenInfo) ->
      Option TokenInfo × List (Address × TokenInfo)
  | [], seenTokens => (none, seenTokens)
  | fmLog :: rest, seenTokens =>
    let tokenAddress := (jsToLower fmLog.address)
    if mapHas seenTokens tokenAddress then
      detectLoop txLogs txHash blockNumber gtd rest seenTokens
    else
      match txLogs.find? (fun l =>
          (jsToLower l.address) == tokenAddress &&
          l.args.from' == some ZERO_ADDRESS) with
      | none => detectLoop txLogs txHash blockNumber gtd rest seenTokens
      | some mintLog =>
        let tokenEvents := txLogs.filter
          (fun l => (jsToLower l.address) == tokenAddress)
        let sortedTokenEvents := sortByLogIndex tokenEvents
        let creatorAddress :=
          (sortedTokenEvents.getLast?).bind (fun l => l.args.to')
        match gtd tokenAddress with
        | .ok tokenData =>
          let devHolding := calculateDevHolding txLogs tokenAddress creatorAddress
          let currentSupply :=
            (STANDARD_TOTAL_SUPPLY : Int) - (devHolding.amount : Int)
          let tokenInfo : TokenInfo :=
            { tokenAddress := tokenAddress
              name := tokenData.name
              symbol := tokenData.symbol
              totalSupply := STANDARD_TOTAL_SUPPLY
              currentSupply := currentSupply
              creator := creatorAddress
              mintRecipient := mintLog.args.to'
              transactionHash := txHash
              blockNumber := blockNumber
              value := fmLog.args.value
              dataErrors := tokenData.errors
              devHolding := devHolding
              mintLog := some { from' := mintLog.args.from'
                                to' := mintLog.args.to'
                                value := mintLog.args.value
                                logIndex := mintLog.logIndex }
              fourMemeTransfer := some { from' := fmLog.args.from'
                                         to' := fmLog.args.to'
                                         value := fmLog.args.value
                                         logIndex := fmLog.logIndex } }
          (some tokenInfo, mapSet seenTokens tokenAddress tokenInfo)
        | .error e =>
          let tokenInfo : TokenInfo :=
            { tokenAddress := tokenAddress
              creator := creatorAddress
              mintRecipient := mintLog.args.to'
              transactionHash := txHash
              blockNumber := blockNumber
              value := fmLog.args.value
              totalSupply := STANDARD_TOTAL_SUPPLY
              currentSupply := (STANDARD_TOTAL_SUPPLY : Int)
              devHolding := { amount := 0
                              error := some "Failed to calculate dev holding" }
              error := some e }
          (some tokenInfo, mapSet seenTokens tokenAddress tokenInfo)

/-- `detectNewToken` (tokenDetector.js lines 114-268). Returns the newly
detected token (if any) and the updated `seenTokens` map. -/
def detectNewToken (txLogs : List Log) (txHash : String) (blockNumber : Nat)
    (gtd : Address -> Except String TokenData)
    (seenTokens : List (Address × TokenInfo)) :
    Option TokenInfo × List (Address × TokenInfo) :=
  let toFourMeme := txLogs.filter (fun l =>
    l.args.to'.map jsToLower == some (jsToLower FOUR_MEME_ADDRESS))
  if toFourMeme.isEmpty then (none, seenTokens)
  else detectLoop txLogs txHash blockNumber gtd toFourMeme seenTokens

end Detector

/-! ## src/main.js — `processLogs`, second pass (lines 94-305)

Unlike `processTradesInTransaction` in tokenProcessor.js, every guard in
this loop is written `return`, which in JS exits the whole async
function: it aborts the remaining logs of the transaction, every
remaining transaction group, and the database save loop at the end of
`processLogs`. The model reproduces that control flow exactly. -/

namespace MainJs

/-- `FOUR_MEME_RELATED_ADDRESSES` of src/main.js (this list differs from
the tokenProcessor.js one: it includes `0x8d68…b499`). -/
def FOUR_MEME_RELATED_ADDRESSES : List Address :=
  [ "0x5c952063c7fc8610ffdb798152d69f0b9550762b"
  , "0x8d68e48baee3264ecd62a8b85b80f8558cc1b499"
  , "0x48735904455eda3aa9a0c9e43ee9999c795e30b9" ]

structure SecondPassState where
  seenTokens : List (Address × TokenInfo)
  updatedTokens : List Address
  deriving Repr, DecidableEq

/-- The inline trade-tracking initialization of `processLogs` (main.js
lines 118-129); identical to tokenProcessor's version except that it
does not seed `devHoldings`. -/
def initTradeTracking (t : TokenInfo) : TokenInfo :=
  match t.trades with
  | some _ => t
  | none =>
    { t with
      trades := some []
      buyCount := 1
      sellCount := 0
      uniqueBuyers := (creatorLower t).toList
      uniqueSellers := []
      totalBuyVolume := (t.totalSupply : Int)
      totalSellVolume := 0 }

/-- One iteration of the inner per-log loop of the second pass (main.js
lines 95-290). The second component is `true` when the body executed a
`return`, i.e. aborted the whole of `processLogs`. `receipts` is the
`getTransactionReceipt` oracle, keyed by transaction hash. -/
def processLogStep (receipts : String -> List Log) (now : Nat)
    (st : SecondPassState) (l : Log) : SecondPassState × Bool :=
  let tokenAddress := (jsToLower l.address)
  match mapGet st.seenTokens tokenAddress with
  | none => (st, true)
  | some t0 =>
    match l.args.from'.map jsToLower, l.args.to'.map jsToLower,
        l.args.value with
    | some fromAddress, some toAddress, some v =>
      if v == 0 then (st, true)
      else if (fromAddress != (jsToLower FOUR_MEME_ADDRESS) &&
            FOUR_MEME_RELATED_ADDRESSES.contains fromAddress) ||
          (toAddress != (jsToLower FOUR_MEME_ADDRESS) &&
            FOUR_MEME_RELATED_ADDRESSES.contains toAddress) then
        (st, true)
      else
        let tokenInfo := initTradeTracking t0
        if fromAddress == (jsToLower FOUR_MEME_ADDRESS) then
          let t' := { tokenInfo with
            buyCount := tokenInfo.buyCount + 1
            uniqueBuyers := jsSetAdd tokenInfo.uniqueBuyers toAddress
            totalBuyVolume := tokenInfo.totalBuyVolume + (v : Int)
            trades := some (tokenInfo.trades.getD [] ++
              [{ type := "buy", amount := v, buyer := some toAddress
                 txHash := l.transactionHash, blockNumber := l.blockNumber
                 timestamp := now }]) }
          ({ seenTokens := mapSet st.seenTokens tokenAddress t'
             updatedTokens := jsSetAdd st.updatedTokens tokenAddress }, false)
        else if toAddress == (jsToLower FOUR_MEME_ADDRESS) then
          let t' := { tokenInfo with
            sellCount := tokenInfo.sellCount + 1
            uniqueSellers := jsSetAdd tokenInfo.uniqueSellers fromAddress
            totalSellVolume := tokenInfo.totalSellVolume + (v : Int)
            trades := some (tokenInfo.trades.getD [] ++
              [{ type := "sell", amount := v, seller := some fromAddress
                 txHash := l.transactionHash, blockNumber := l.blockNumber
                 timestamp := now }]) }
          ({ seenTokens := mapSet st.seenTokens tokenAddress t'
             updatedTokens := jsSetAdd st.updatedTokens tokenAddress }, false)
        else if !FOUR_MEME_RELATED_ADDRESSES.contains fromAddress &&
            !FOUR_MEME_RELATED_ADDRESSES.contains toAddress then
          if tokenInfo.uniqueBuyers.contains fromAddress then
            let isWBNBTransferInTx :=
              TokenProcessor.isWBNBTransferIn (receipts l.transactionHash)
            let isDexContract := KNOWN_DEX_CONTRACTS.contains toAddress
            if isDexContract then
              -- Cross-platform branch: only console logging, then
              -- `return`, before the `seenTokens.set` at line 289 — the
              -- whole function aborts with the state unchanged.
              (st, true)
            else if !isDexContract && !isWBNBTransferInTx then
              let t' := { tokenInfo with
                walletTransfers := some (tokenInfo.walletTransfers.getD [] ++
                  [{ from' := fromAddress, to' := toAddress, amount := v
                     txHash := l.transactionHash, blockNumber := l.blockNumber
                     timestamp := now }]) }
              ({ seenTokens := mapSet st.seenTokens tokenAddress t'
                 updatedTokens := jsSetAdd st.updatedTokens tokenAddress },
                false)
            else
              ({ seenTokens := mapSet st.seenTokens tokenAddress tokenInfo
                 updatedTokens := st.updatedTokens }, false)
          else
            ({ seenTokens := mapSet st.seenTokens tokenAddress tokenInfo
               updatedTokens := st.updatedTokens }, false)
        else
          ({ seenTokens := mapSet st.seenTokens tokenAddress tokenInfo
             updatedTokens := st.updatedTokens }, false)
    | _, _, _ => (st, true)

/-- The inner `for (const log of txLogs)` loop; stops and reports abort
as soon as one body `return`s. -/
def runInner (receipts : String -> List Log) (now : Nat) :
    SecondPassState -> List Log -> SecondPassState × Bool
  | st, [] => (st, false)
  | st, l :: rest =>
    match processLogStep receipts now st l with
    | (st', true) => (st', true)
    | (st', false) => runInner receipts now st' rest

/-- The outer `for (const [txHash, txLogs] of logsByTx)` loop. -/
def runOuter (receipts : String -> List Log) (now : Nat) :
    SecondPassState -> List (String × List Log) -> SecondPassState × Bool
  | st, [] => (st, false)
  | st, (_, txLogs) :: rest =>
    match runInner receipts now st txLogs with
    | (st', true) => (st', true)
    | (st', false) => runOuter receipts now st' rest

/-- The second pass of `processLogs` plus its trailing save loop: groups
the logs by transaction (main.js lines 56-63, same fold as
tokenProcessor's `groupLogsByTransaction`), runs the classification
loops, and returns the final token map together with the list of token
addresses actually saved to the database. When any body `return`ed, the
save loop at lines 294-302 never runs, so nothing is saved. -/
def processLogsSecondPass (receipts : String -> List Log) (now : Nat)
    (seenTokens : List (Address × TokenInfo)) (logs : List Log) :
    List (Address × TokenInfo) × List Address :=
  let logsByTx := TokenProcessor.groupLogsByTransaction logs
  match runOuter receipts now { seenTokens := seenTokens, updatedTokens := [] }
      logsByTx with
  | (st, true) => (st.seenTokens, [])
  | (st, false) => (st.seenTokens, st.updatedTokens)

end MainJs

/-! ## `analyzeToken` (src/services/tokenAnalyzer.js, unnamed part_006
lines 627-720) -/

namespace Analyzer

/-- The analysis result; the human-readable `flags` strings and the
`insights` payload are display-only and omitted. -/
structure Analysis where
  riskScore : Nat
  riskLevel : String
  deriving Repr, DecidableEq

/-- `analyzeToken(tokenInfo)`: the additive risk rules. Notes on the
embedding of JS constructs:
* `tokenInfo.devHoldings && tokenInfo.totalSupply ? BigInt(...) : "0"`:
  both are decimal strings, truthy whenever present; absent fields are
  the model defaults `0`, for which the BigInt quotient is also `0`
  (the source would throw on a present but zero `totalSupply`; no claim
  touches that case).
* `sellBuyRatio = sellCount / buyCount > 2` is floating-point division;
  for the integral counts involved it is `sellCount > 2 * buyCount`.
* `t.timeSinceFirstBuy && t.timeSinceFirstBuy < 300`: `0` is falsy, so a
  record with `timeSinceFirstBuy = 0` never counts as a quick trade.
* guards `x && x.length > 0` on the `Option` list fields are
  `(·.getD []) ≠ []`. -/
def analyzeToken (t : TokenInfo) : Analysis :=
  let devPercentage : Int :=
    if t.totalSupply == 0 then 0
    else t.devHoldings * 100 / (t.totalSupply : Int)
  let score1 : Nat := if devPercentage > 50 then 2 else 0
  let score2 : Nat :=
    if (t.trades.getD []).any (fun tr =>
        tr.type == "sell" && tr.isCreator &&
          (tr.amount : Int) > (t.totalSupply : Int) * 10 / 100) then 3 else 0
  let score3 : Nat :=
    if t.sellCount > 0 && t.buyCount > 0 && t.sellCount > 2 * t.buyCount
    then 2 else 0
  let walletTransfers := t.walletTransfers.getD []
  let transferRecipients := (walletTransfers.map (fun w => w.to')).eraseDups
  let multiTransferRecipients := transferRecipients.filter (fun a =>
    (walletTransfers.filter (fun w => w.to' == a)).length > 3)
  let score4 : Nat :=
    if walletTransfers.length > 0 then multiTransferRecipients.length else 0
  let crossPlatformTrades := t.crossPlatformTrades.getD []
  let quickTrades := crossPlatformTrades.filter (fun tr =>
    !(tr.timeSinceFirstBuy == 0) && tr.timeSinceFirstBuy < 300)
  let score5 : Nat :=
    if crossPlatformTrades.length > 0 && quickTrades.length > 0 then 3 else 0
  let riskScore := score1 + score2 + score3 + score4 + score5
  let riskLevel :=
    if riskScore >= 7 then "high"
    else if riskScore >= 4 then "medium"
    else if riskScore > 0 then "low"
    else "none"
  { riskScore := riskScore, riskLevel := riskLevel }

end Analyzer

/-! ## Persistence round trip

`saveToken` (src/src/db/tokenRepository.js lines 9-44) serializes the
record for MongoDB; `loadTokensFromDatabase` (unnamed part_001 lines
59-86) reads it back. The collection-valued fields pass through the
JS dynamic expression `token.uniqueBuyers && !token.uniqueBuyers
instanceof Set`, which needs a tiny fragment of JS value semantics:
`!x instanceof Set` parses as `(!x) instanceof Set`, and `!x` is a
Boolean, which is never an `instanceof Set`. -/

namespace Repo

/-- A JS value that is either a `Set` of addresses, an `Array` of
addresses, or a Boolean (the result of the `!` operator). -/
inductive JsCollection where
  | setOf (elems : List Address)
  | arrayOf (elems : List Address)
  | boolOf (b : Bool)
  deriving Repr, DecidableEq

def elemsOf : JsCollection -> List Address
  | .setOf xs => xs
  | .arrayOf xs => xs
  | .boolOf _ => []

/-- JS truthiness: sets and arrays are always truthy objects. -/
def jsTruthy : JsCollection -> Bool
  | .boolOf b => b
  | _ => true

/-- The JS `!` operator: always yields a Boolean. -/
def jsNot (v : JsCollection) : JsCollection := .boolOf (!jsTruthy v)

/-- JS `instanceof Set`. -/
def isInstanceOfSet : JsCollection -> Bool
  | .setOf _ => true
  | _ => false

/-- The serialized token document; only the fields the claim compares
(identity, numeric aggregates, the two collections and their stored
counts). -/
structure StoredToken where
  tokenAddress : Address
  creator : Option Address
  buyCount : Nat
  sellCount : Nat
  totalBuyVolume : Int
  totalSellVolume : Int
  devHoldings : Int
  uniqueBuyers : JsCollection
  uniqueSellers : JsCollection
  uniqueBuyersCount : Option Nat := none
  uniqueSellersCount : Option Nat := none
  deriving Repr, DecidableEq

/-- `saveToken` (tokenRepository.js lines 9-44): convert `Set`-valued
collections to arrays (recording counts) and upsert the document by
lowercased address; the stored document is returned. -/
def saveToken (t : StoredToken) : StoredToken :=
  let t :=
    if isInstanceOfSet t.uniqueBuyers then
      { t with uniqueBuyers := .arrayOf (elemsOf t.uniqueBuyers)
               uniqueBuyersCount := some (elemsOf t.uniqueBuyers).length }
    else t
  let t :=
    if isInstanceOfSet t.uniqueSellers then
      { t with uniqueSellers := .arrayOf (elemsOf t.uniqueSellers)
               uniqueSellersCount := some (elemsOf t.uniqueSellers).length }
    else t
  t

/-- The per-field rehydration in `loadTokensFromDatabase` (part_001
lines 68-73): `if (token.uniqueBuyers && !token.uniqueBuyers instanceof
Set) token.uniqueBuyers = new Set(token.uniqueBuyers)`. -/
def rehydrateCollection (v : JsCollection) : JsCollection :=
  if jsTruthy v && isInstanceOfSet (jsNot v) then .setOf (elemsOf v) else v

/-- `loadTokensFromDatabase` applied to one stored document (the
surrounding loop then keys it by `token.tokenAddress.toLowerCase()`). -/
def loadToken (doc : StoredToken) : StoredToken :=
  { doc with
    uniqueBuyers := rehydrateCollection doc.uniqueBuyers
    uniqueSellers := rehydrateCollection doc.uniqueSellers }

end Repo

/-! ## Filter lifecycle (src/main.js lines 320-363)

`main` creates a persistent Transfer-event filter and, on every new
block number, polls `getFilterChanges`; the `catch` handler recreates
the filter when the provider reports `filter not found`. Polling and
filter creation are oracles. -/

namespace Watcher

/-- JS `String.prototype.includes`. -/
def jsIncludes (s pat : String) : Bool :=
  s.toList.tails.any (fun t => pat.toList.isPrefixOf t)

/-- Result of a `getFilterChanges` poll: logs, or a thrown error whose
`message` the handler inspects. -/
inductive PollResult where
  | ok (logs : List Log)
  | err (msg : String)

/-- The `onBlockNumber` handler of `watchBlockNumber` (main.js lines
333-358), with `poll` the `getFilterChanges` oracle keyed by filter
handle and `create` the result of the `createEventFilter` retry. The
handler returns the new `globalFilter` state and `some logs` when the
block was processed; it catches every error itself (`none`), so no
error ever propagates to the block watcher. -/
def onBlockNumber (poll : Nat -> PollResult) (create : Except String Nat)
    (globalFilter : Nat) : Nat × Option (List Log) :=
  match poll globalFilter with
  | .ok logs => (globalFilter, some logs)
  | .err msg =>
    if jsIncludes msg "filter not found" then
      match create with
      | .ok newFilter => (newFilter, none)
      | .error _ => (globalFilter, none)
    else (globalFilter, none)

end Watcher

/-! ## Map lemmas -/

theorem mapGet_mapSet_ne {α : Type} (m : List (String × α)) (k k' : String)
    (v : α) (h : k' ≠ k) : mapGet (mapSet m k v) k' = mapGet m k' := by
  induction m with
  | nil =>
    have h1 : (k == k') = false := beq_eq_false_iff_ne.mpr (Ne.symm h)
    simp [mapGet, mapSet, h1]
  | cons p rest ih =>
    obtain ⟨a, b⟩ := p
    by_cases hak : a = k
    · subst hak
      have h2 : (a == k') = false := beq_eq_false_iff_ne.mpr (Ne.symm h)
      simp [mapGet, mapSet, h2]
    · have h1 : (a == k) = false := beq_eq_false_iff_ne.mpr hak
      simp [mapGet, mapSet, h1, ih]

theorem mapHas_ne_of_true_false {α : Type} (m : List (String × α))
    (a k : String) (ha : mapHas m a = true) (hk : mapHas m k = false) :
    a ≠ k := by
  intro h; subst h; rw [ha] at hk; exact Bool.noConfusion hk

theorem mapHas_mapSet_self {α : Type} (m : List (String × α)) (k : String)
    (v : α) : mapHas (mapSet m k v) k = true := by
  induction m with
  | nil => simp [mapSet, mapHas]
  | cons p rest ih =>
    obtain ⟨a, b⟩ := p
    by_cases hak : a = k
    · subst hak; simp [mapSet, mapHas]
    · have h1 : (a == k) = false := beq_eq_false_iff_ne.mpr hak
      simp [mapSet, mapHas, h1, ih]

/-! ## Claims -/

/-- C1: for a token tracked with the creator's initial allocation of
1000000 (so `totalSupply = 1000000` seeds the trade tracking), a
transfer from the platform of 500 tokens to `0xbeef` is recorded as a
BUY by the classifier: `buyCount` goes from 1 (the seeded creator
allocation) to 2, `0xbeef` joins `uniqueBuyers`, and `totalBuyVolume`
becomes 1000500 (tokenProcessor.js `initializeTokenTradeTracking` /
`processBuyTransaction`). -/
theorem c1_platform_buy_updates_aggregates (t : TokenInfo) (c txHash : String)
    (bn now : Nat) (htr : t.trades = none) (hts : t.totalSupply = 1000000)
    (hc : t.creator = some c) :
    (TokenProcessor.initializeTokenTradeTracking t).buyCount = 1 ∧
    ((TokenProcessor.processBuyTransaction
        (TokenProcessor.initializeTokenTradeTracking t)
        "0xbeef" 500 txHash bn now).1).buyCount = 2 ∧
    ((TokenProcessor.processBuyTransaction
        (TokenProcessor.initializeTokenTradeTracking t)
        "0xbeef" 500 txHash bn now).1).uniqueBuyers.contains "0xbeef" = true ∧
    ((TokenProcessor.processBuyTransaction
        (TokenProcessor.initializeTokenTradeTracking t)
        "0xbeef" 500 txHash bn now).1).totalBuyVolume = 1000500 := by
  simp only [TokenProcessor.initializeTokenTradeTracking, htr]
  refine ⟨trivial, ?_⟩
  simp only [TokenProcessor.processBuyTransaction, jsSetAdd, hts, hc, creatorLower]
  refine ⟨?_, ?_, ?_⟩ <;> (repeat' split) <;> simp_all

theorem c1_witness :
    (TokenProcessor.initializeTokenTradeTracking
      { tokenAddress := "0xtok", totalSupply := 1000000,
        creator := some "0xcafe" }).buyCount = 1 ∧
    ((TokenProcessor.processBuyTransaction
        (TokenProcessor.initializeTokenTradeTracking
          { tokenAddress := "0xtok", totalSupply := 1000000,
            creator := some "0xcafe" })
        "0xbeef" 500 "0xtx" 100 7).1).buyCount = 2 ∧
    ((TokenProcessor.processBuyTransaction
        (TokenProcessor.initializeTokenTradeTracking
          { tokenAddress := "0xtok", totalSupply := 1000000,
            creator := some "0xcafe" })
        "0xbeef" 500 "0xtx" 100 7).1).uniqueBuyers.contains "0xbeef" = true ∧
    ((TokenProcessor.processBuyTransaction
        (TokenProcessor.initializeTokenTradeTracking
          { tokenAddress := "0xtok", totalSupply := 1000000,
            creator := some "0xcafe" })
        "0xbeef" 500 "0xtx" 100 7).1).totalBuyVolume = 1000500 :=
  c1_platform_buy_updates_aggregates
    { tokenAddress := "0xtok", totalSupply := 1000000, creator := some "0xcafe" }
    "0xcafe" "0xtx" 100 7 rfl rfl rfl

/-- C3: a transfer of a tracked token from a previously observed buyer
to the creator, with neither side the platform or platform
infrastructure, no DEX destination and no WBNB transfer in the
transaction, is classified as a wallet transfer
(`processWalletTransfer` marks the record updated and appends to
`walletTransfers`) and credits `devHoldings` (the issuer residual
holding) by exactly the transferred amount because the destination is
the creator. -/
theorem c3_wallet_transfer_to_creator_credits_devHoldings
    (t : TokenInfo) (cr fromA txHash : String) (amount bn now : Nat)
    (receiptLogs : List Log)
    (hc : t.creator = some cr)
    (hbuyer : fromA ∈ t.uniqueBuyers)
    (hfrom_rel : fromA ∉ TokenProcessor.FOUR_MEME_RELATED_ADDRESSES)
    (hto_rel : jsToLower cr ∉ TokenProcessor.FOUR_MEME_RELATED_ADDRESSES)
    (hfrom_ne : fromA ≠ (jsToLower cr))
    (hto_dex : jsToLower cr ∉ KNOWN_DEX_CONTRACTS)
    (hwbnb : TokenProcessor.isWBNBTransferIn receiptLogs = false) :
    (TokenProcessor.processWalletTransfer t fromA (jsToLower cr) amount txHash bn
        receiptLogs now).2 = true ∧
    (TokenProcessor.processWalletTransfer t fromA (jsToLower cr) amount txHash bn
        receiptLogs now).1.devHoldings = t.devHoldings + amount ∧
    (TokenProcessor.processWalletTransfer t fromA (jsToLower cr) amount txHash bn
        receiptLogs now).1.walletTransfers =
      some (t.walletTransfers.getD [] ++
        [{ from' := fromA, to' := (jsToLower cr), amount := amount,
           txHash := txHash, blockNumber := bn, timestamp := now }]) := by
  simp [TokenProcessor.processWalletTransfer, hfrom_rel, hto_rel, hfrom_ne,
    hto_dex, hwbnb, creatorLower, hc]

theorem c3_witness :
    (TokenProcessor.processWalletTransfer
        { tokenAddress := "0xtok", totalSupply := 1000000,
          creator := some "0xcafe", trades := some [], buyCount := 1,
          uniqueBuyers := ["0xcafe", "0xbeef"], devHoldings := 1000000 }
        "0xbeef" (jsToLower "0xcafe") 500 "0xtx" 100 [] 7).2 = true ∧
    (TokenProcessor.processWalletTransfer
        { tokenAddress := "0xtok", totalSupply := 1000000,
          creator := some "0xcafe", trades := some [], buyCount := 1,
          uniqueBuyers := ["0xcafe", "0xbeef"], devHoldings := 1000000 }
        "0xbeef" (jsToLower "0xcafe") 500 "0xtx" 100 [] 7).1.devHoldings
      = 1000000 + 500 ∧
    (TokenProcessor.processWalletTransfer
        { tokenAddress := "0xtok", totalSupply := 1000000,
          creator := some "0xcafe", trades := some [], buyCount := 1,
          uniqueBuyers := ["0xcafe", "0xbeef"], devHoldings := 1000000 }
        "0xbeef" (jsToLower "0xcafe") 500 "0xtx" 100 [] 7).1.walletTransfers =
      some (Option.getD none [] ++
        [{ from' := "0xbeef", to' := (jsToLower "0xcafe"), amount := 500,
           txHash := "0xtx", blockNumber := 100, timestamp := 7 }]) :=
  c3_wallet_transfer_to_creator_credits_devHoldings
    { tokenAddress := "0xtok", totalSupply := 1000000,
      creator := some "0xcafe", trades := some [], buyCount := 1,
      uniqueBuyers := ["0xcafe", "0xbeef"], devHoldings := 1000000 }
    "0xcafe" "0xbeef" "0xtx" 500 100 7 []
    rfl (by decide) (by decide) (by decide) (by decide) (by decide) rfl

/-- C10: for a tracked token, a transfer to a recognized non-four.meme
platform contract from an address with no prior recorded buy trades on
the token makes `processCrossPlatformTrade` return `null`: no
`crossPlatformTrades` entry is appended and the caller does not mark
the token updated. -/
theorem c10_cross_platform_requires_prior_buys
    (t : TokenInfo) (fromA toA txHash p : String) (amount bn now : Nat)
    (ts : List Trade)
    (htr : t.trades = some ts)
    (hplat : TokenProcessor.platformOf toA = some p)
    (hp : p ≠ "four.meme")
    (hnobuys : ts.filter (fun tr =>
        tr.type == "buy" &&
          tr.buyer.map jsToLower == some (jsToLower fromA)) = []) :
    TokenProcessor.processCrossPlatformTrade t fromA toA amount bn txHash now
      = none := by
  simp [TokenProcessor.processCrossPlatformTrade, hplat, hp, htr, hnobuys]

theorem c10_witness :
    TokenProcessor.processCrossPlatformTrade
      { tokenAddress := "0xtok", totalSupply := 1000000,
        creator := some "0xcafe", trades := some [], buyCount := 1 }
      "0xbeef" "0x2b6e6e4def77583229299cf386438a227e683b28" 500 100 "0xtx" 7
      = none :=
  c10_cross_platform_requires_prior_buys
    { tokenAddress := "0xtok", totalSupply := 1000000,
      creator := some "0xcafe", trades := some [], buyCount := 1 }
    "0xbeef" "0x2b6e6e4def77583229299cf386438a227e683b28" "0xtx" "gmgn.ai"
    500 100 7 [] rfl (by decide) (by decide) rfl

/-- C6 fails on the code (the claim describes the documented intent).
`processCrossPlatformTrade` stores `timeSinceFirstBuy` in minutes
(`Math.floor(seconds/60)`), but `analyzeToken` filters
`t.timeSinceFirstBuy && t.timeSinceFirstBuy < 300` — intending "< 5
minutes" per its comment, it actually (a) fires for anything up to 300
minutes (5 hours) and (b) never fires at 0 minutes because `0` is falsy.
Evidence: a token whose only cross-platform trade happened 60 minutes
after the source's first buy scores +3 (riskLevel "low"), while one
whose trade happened 0 minutes (well within 5 minutes) after the first
buy scores 0 (riskLevel "none"). -/
theorem c6_quick_trade_rule_uses_wrong_units :
    Analyzer.analyzeToken
      { tokenAddress := "0xtok", totalSupply := 1000000000000000000000000000,
        creator := some "0xcafe", trades := some [], buyCount := 2,
        sellCount := 0, devHoldings := 0,
        crossPlatformTrades := some
          [{ from' := "0xbeef",
             to' := "0x2b6e6e4def77583229299cf386438a227e683b28",
             platform := "gmgn.ai", amount := 500, txHash := "0xtx",
             blockNumber := 100, timestamp := 3600,
             timeSinceFirstBuy := 60 }] }
      = { riskScore := 3, riskLevel := "low" } ∧
    Analyzer.analyzeToken
      { tokenAddress := "0xtok", totalSupply := 1000000000000000000000000000,
        creator := some "0xcafe", trades := some [], buyCount := 2,
        sellCount := 0, devHoldings := 0,
        crossPlatformTrades := some
          [{ from' := "0xbeef",
             to' := "0x2b6e6e4def77583229299cf386438a227e683b28",
             platform := "gmgn.ai", amount := 500, txHash := "0xtx",
             blockNumber := 100, timestamp := 10,
             timeSinceFirstBuy := 0 }] }
      = { riskScore := 0, riskLevel := "none" } := by
  constructor <;> rfl

/-- C5 fails on the code (the claim describes the documented intent).
`saveToken` stores `uniqueBuyers`/`uniqueSellers` as arrays, and
`loadTokensFromDatabase` intends to convert them back
("Convert Set-like objects back to actual Sets"), but its condition
`token.uniqueBuyers && !token.uniqueBuyers instanceof Set` parses as
`(!token.uniqueBuyers) instanceof Set`, which is a Boolean and never a
Set — so the conversion never runs and a reloaded record keeps plain
arrays: identity and numeric aggregates survive the round trip, but the
collections do not re-hydrate to membership-queryable sets. -/
theorem c5_reload_keeps_arrays_not_sets :
    Repo.loadToken (Repo.saveToken
      { tokenAddress := "0xtok", creator := some "0xcafe", buyCount := 2,
        sellCount := 1, totalBuyVolume := 1000500, totalSellVolume := 300,
        devHoldings := 1000000,
        uniqueBuyers := .setOf ["0xcafe", "0xbeef"],
        uniqueSellers := .setOf ["0xbeef"] })
      = { tokenAddress := "0xtok", creator := some "0xcafe", buyCount := 2,
          sellCount := 1, totalBuyVolume := 1000500, totalSellVolume := 300,
          devHoldings := 1000000,
          uniqueBuyers := .arrayOf ["0xcafe", "0xbeef"],
          uniqueSellers := .arrayOf ["0xbeef"],
          uniqueBuyersCount := some 2, uniqueSellersCount := some 1 } ∧
    Repo.isInstanceOfSet (Repo.loadToken (Repo.saveToken
      { tokenAddress := "0xtok", creator := some "0xcafe", buyCount := 2,
        sellCount := 1, totalBuyVolume := 1000500, totalSellVolume := 300,
        devHoldings := 1000000,
        uniqueBuyers := .setOf ["0xcafe", "0xbeef"],
        uniqueSellers := .setOf ["0xbeef"] })).uniqueBuyers = false := by
  constructor <;> rfl

/-- C2 fails on the code (the claim describes the documented intent and
the tokenProcessor.js variant). In `processLogs` of src/main.js the
"Skip if missing required data" guard (and every other per-log guard of
the second pass) is written `return`, which exits the whole function:
a single malformed log aborts the remaining logs of the batch, the
remaining transaction groups, and the trailing database save loop.
Evidence: with one tracked token and a transaction whose first log is
missing its `value` argument and whose second log is a valid platform
buy, main.js's second pass leaves the token map untouched and saves
nothing (the buy is never classified), while the guards of
`processTradesInTransaction` (tokenProcessor.js, written `continue`)
let exactly the valid buy log through to the dispatch. -/
theorem c2_malformed_log_aborts_main_second_pass :
    MainJs.processLogsSecondPass (fun _ => []) 7
      [("0xtok", { tokenAddress := "0xtok", totalSupply := 1000000,
                   creator := some "0xcafe" })]
      [ { address := "0xtok", transactionHash := "0xtx1", blockNumber := 101,
          logIndex := 0,
          args := { from' := some "0xaabb", to' := some "0xccdd",
                    value := none } }
      , { address := "0xtok", transactionHash := "0xtx1", blockNumber := 101,
          logIndex := 1,
          args := { from' := some FOUR_MEME_ADDRESS, to' := some "0xbeef",
                    value := some 500 } } ]
      = ([("0xtok", { tokenAddress := "0xtok", totalSupply := 1000000,
                      creator := some "0xcafe" })], []) ∧
    TokenProcessor.logsReachingDispatch ["0xtok"]
      [ { address := "0xtok", transactionHash := "0xtx1", blockNumber := 101,
          logIndex := 0,
          args := { from' := some "0xaabb", to' := some "0xccdd",
                    value := none } }
      , { address := "0xtok", transactionHash := "0xtx1", blockNumber := 101,
          logIndex := 1,
          args := { from' := some FOUR_MEME_ADDRESS, to' := some "0xbeef",
                    value := some 500 } } ]
      = [ { address := "0xtok", transactionHash := "0xtx1",
            blockNumber := 101, logIndex := 1,
            args := { from' := some FOUR_MEME_ADDRESS, to' := some "0xbeef",
                      value := some 500 } } ] := by
  constructor <;> rfl

/-- C4: on a transaction whose grouped logs for a not-yet-tracked token
`T` are a mint of `v` tokens from the zero address to the platform,
followed by a transfer of `v` tokens from the platform to the creator
address `cafe` (log indexes in that order), the Detector yields a
TrackedToken for `T` whose `creator` is `cafe` — the destination of
`T`'s last log when sorted by log index — and whose issuer residual
holding (`devHolding.amount`, the amount of the platform-to-creator
transfer) equals `v`; the token is entered into the tracking map.
`T` is a normalized (lowercase) contract address and `cafe` is not the
platform, matching the scenario. -/
theorem c4_scenario_a_detection (T cafe txHash : String) (v bn i0 i1 : Nat)
    (td : TokenData) (gtd : Address -> Except String TokenData)
    (seen : List (Address × TokenInfo))
    (hT : jsToLower T = T)
    (hseen : mapHas seen T = false)
    (hcafe : jsToLower cafe ≠ jsToLower FOUR_MEME_ADDRESS)
    (hidx : i0 ≤ i1)
    (hg : gtd T = Except.ok td) :
    ((Detector.detectNewToken
      [ { address := T, transactionHash := txHash, blockNumber := bn,
          logIndex := i0,
          args := { from' := some ZERO_ADDRESS,
                    to' := some FOUR_MEME_ADDRESS, value := some v } }
      , { address := T, transactionHash := txHash, blockNumber := bn,
          logIndex := i1,
          args := { from' := some FOUR_MEME_ADDRESS,
                    to' := some cafe, value := some v } } ]
      txHash bn gtd seen).1.map (fun i => (i.creator, i.devHolding.amount)))
      = some (some cafe, v) ∧
    mapHas (Detector.detectNewToken
      [ { address := T, transactionHash := txHash, blockNumber := bn,
          logIndex := i0,
          args := { from' := some ZERO_ADDRESS,
                    to' := some FOUR_MEME_ADDRESS, value := some v } }
      , { address := T, transactionHash := txHash, blockNumber := bn,
          logIndex := i1,
          args := { from' := some FOUR_MEME_ADDRESS,
                    to' := some cafe, value := some v } } ]
      txHash bn gtd seen).2 T = true := by
  have hbeq_cafe : (some (jsToLower cafe) ==
      some (jsToLower FOUR_MEME_ADDRESS)) = false :=
    beq_eq_false_iff_ne.mpr (fun he => hcafe (Option.some.inj he))
  have hbeq_zero : (some (jsToLower ZERO_ADDRESS) ==
      some (jsToLower FOUR_MEME_ADDRESS)) = false := by decide
  rw [Detector.detectNewToken]
  simp only [Option.map_some, List.filter_cons, List.filter_nil,
    beq_self_eq_true, if_true, hbeq_cafe, Bool.false_eq_true, if_false,
    List.isEmpty_cons, Detector.detectLoop, hT, hseen,
    List.find?_cons, Bool.and_self, hbeq_zero, Bool.and_false,
    Detector.sortByLogIndex, Detector.sortInsert, hidx, if_pos,
    List.getLast?_cons, List.getLast?_nil, hg]
  constructor
  · simp [Detector.calculateDevHolding, hT, hbeq_zero, beq_self_eq_true]
  · simp only [Detector.calculateDevHolding]
    exact mapHas_mapSet_self seen T _

theorem c4_witness :
    ((Detector.detectNewToken
      [ { address := "0xtoken1", transactionHash := "0xtxa",
          blockNumber := 100, logIndex := 0,
          args := { from' := some ZERO_ADDRESS,
                    to' := some FOUR_MEME_ADDRESS, value := some 1000000 } }
      , { address := "0xtoken1", transactionHash := "0xtxa",
          blockNumber := 100, logIndex := 1,
          args := { from' := some FOUR_MEME_ADDRESS,
                    to' := some "0xcafe", value := some 1000000 } } ]
      "0xtxa" 100
      (fun _ => Except.ok { name := some "Tok", symbol := some "TOK" })
      []).1.map (fun i => (i.creator, i.devHolding.amount)))
      = some (some "0xcafe", 1000000) ∧
    mapHas (Detector.detectNewToken
      [ { address := "0xtoken1", transactionHash := "0xtxa",
          blockNumber := 100, logIndex := 0,
          args := { from' := some ZERO_ADDRESS,
                    to' := some FOUR_MEME_ADDRESS, value := some 1000000 } }
      , { address := "0xtoken1", transactionHash := "0xtxa",
          blockNumber := 100, logIndex := 1,
          args := { from' := some FOUR_MEME_ADDRESS,
                    to' := some "0xcafe", value := some 1000000 } } ]
      "0xtxa" 100
      (fun _ => Except.ok { name := some "Tok", symbol := some "TOK" })
      []).2 "0xtoken1" = true :=
  c4_scenario_a_detection "0xtoken1" "0xcafe" "0xtxa" 1000000 100 0 1
    { name := some "Tok", symbol := some "TOK" }
    (fun _ => Except.ok { name := some "Tok", symbol := some "TOK" })
    [] (by decide) rfl (by decide) (by decide) rfl

/-- C9: when a poll fails and the provider's error message contains
`filter not found`, the `onBlockNumber` handler recreates the filter and
continues silently — its result carries the recreated filter handle and
no processed logs, and (being a total function whose errors are all
caught inside) nothing propagates to the block watcher; the next poll
then proceeds with the recreated filter and succeeds. -/
theorem c9_filter_recreated_next_poll_succeeds
    (poll : Nat -> Watcher.PollResult) (f f' : Nat) (msg : String)
    (logs : List Log)
    (hmsg : Watcher.jsIncludes msg "filter not found" = true)
    (hpoll : poll f = .err msg)
    (hpoll' : poll f' = .ok logs) :
    Watcher.onBlockNumber poll (.ok f') f = (f', none) ∧
    Watcher.onBlockNumber poll (.ok f')
      (Watcher.onBlockNumber poll (.ok f') f).1 = (f', some logs) := by
  constructor
  · simp [Watcher.onBlockNumber, hpoll, hmsg]
  · simp [Watcher.onBlockNumber, hpoll, hmsg, hpoll']

theorem c9_witness :
    Watcher.onBlockNumber
      (fun n => if n == 2 then .ok [] else
        .err "InvalidInputRpcError: filter not found") (.ok 2) 1
      = (2, none) ∧
    Watcher.onBlockNumber
      (fun n => if n == 2 then .ok [] else
        .err "InvalidInputRpcError: filter not found") (.ok 2)
      (Watcher.onBlockNumber
        (fun n => if n == 2 then .ok [] else
          .err "InvalidInputRpcError: filter not found") (.ok 2) 1).1
      = (2, some []) :=
  c9_filter_recreated_next_poll_succeeds
    (fun n => if n == 2 then .ok [] else
      .err "InvalidInputRpcError: filter not found")
    1 2 "InvalidInputRpcError: filter not found" []
    (by decide) rfl rfl

/-- C7: detection never re-evaluates or replaces an already tracked
token: for any address already in `seenTokens`, its entry after
`detectNewToken` is exactly its entry before, and whenever
`detectNewToken` returns a token, that token's address was not
previously tracked (so per address at most one TrackedToken is ever
created in a process lifetime). -/
theorem c7_detect_never_replaces_tracked
    (txLogs : List Log) (txHash : String) (bn : Nat)
    (gtd : Address -> Except String TokenData)
    (seen : List (Address × TokenInfo)) (a : Address)
    (ha : mapHas seen a = true) :
    mapGet (Detector.detectNewToken txLogs txHash bn gtd seen).2 a
      = mapGet seen a ∧
    (∀ info, (Detector.detectNewToken txLogs txHash bn gtd seen).1 = some info →
      mapHas seen info.tokenAddress = false) := by
  have key : ∀ (cands : List Log),
      mapGet (Detector.detectLoop txLogs txHash bn gtd cands seen).2 a
        = mapGet seen a ∧
      (∀ info, (Detector.detectLoop txLogs txHash bn gtd cands seen).1
          = some info → mapHas seen info.tokenAddress = false) := by
    intro cands
    induction cands with
    | nil => exact ⟨rfl, fun info h => by simp [Detector.detectLoop] at h⟩
    | cons fmLog rest ih =>
      by_cases hseen : mapHas seen (jsToLower fmLog.address) = true
      · simpa [Detector.detectLoop, hseen] using ih
      · rw [Bool.not_eq_true] at hseen
        rcases hfind : txLogs.find? (fun l =>
            jsToLower l.address == jsToLower fmLog.address &&
              l.args.from' == some ZERO_ADDRESS) with _ | mintLog
        · constructor
          · simpa [Detector.detectLoop, hseen, hfind] using ih.1
          · intro info h
            rw [Detector.detectLoop] at h
            simp only [hseen, hfind] at h
            exact ih.2 info (by simpa using h)
        · have hne := mapHas_ne_of_true_false seen a (jsToLower fmLog.address)
            ha hseen
          rcases hg : gtd (jsToLower fmLog.address) with e | td
          · refine ⟨?_, ?_⟩
            · rw [Detector.detectLoop]
              simp only [hseen, hfind, hg]
              exact mapGet_mapSet_ne seen (jsToLower fmLog.address) a _ hne
            · intro info h
              rw [Detector.detectLoop] at h
              simp only [hseen, Bool.false_eq_true, if_false, hfind, hg,
                Option.some.injEq] at h
              rw [← h]
              exact hseen
          · refine ⟨?_, ?_⟩
            · rw [Detector.detectLoop]
              simp only [hseen, hfind, hg]
              exact mapGet_mapSet_ne seen (jsToLower fmLog.address) a _ hne
            · intro info h
              rw [Detector.detectLoop] at h
              simp only [hseen, Bool.false_eq_true, if_false, hfind, hg,
                Option.some.injEq] at h
              rw [← h]
              exact hseen
  rw [Detector.detectNewToken]
  split
  · exact ⟨rfl, fun info h => by simp at h⟩
  · exact key _

theorem c7_witness :
    mapGet (Detector.detectNewToken [] "0xtx" 100
      (fun _ => Except.error "no metadata")
      [("0xaaa", { tokenAddress := "0xaaa" })]).2 "0xaaa"
      = mapGet [("0xaaa", { tokenAddress := "0xaaa" : TokenInfo })] "0xaaa" :=
  (c7_detect_never_replaces_tracked [] "0xtx" 100
    (fun _ => Except.error "no metadata")
    [("0xaaa", { tokenAddress := "0xaaa" })] "0xaaa" (by decide)).1

/-! ## Grouping lemmas for C8 -/

theorem mapGet_groupInsert (m : List (String × List Log)) (tx : String)
    (l : Log) (tx' : String) :
    (mapGet (TokenProcessor.groupInsert m tx l) tx').getD [] =
      if tx' = tx then (mapGet m tx').getD [] ++ [l]
      else (mapGet m tx').getD [] := by
  induction m with
  | nil =>
    by_cases h : tx' = tx
    · subst h; simp [TokenProcessor.groupInsert, mapGet]
    · have h1 : (tx == tx') = false := beq_eq_false_iff_ne.mpr (Ne.symm h)
      simp [TokenProcessor.groupInsert, mapGet, h1, h]
  | cons p rest ih =>
    obtain ⟨k, ls⟩ := p
    by_cases hk : k = tx
    · subst hk
      by_cases h : tx' = k
      · subst h; simp [TokenProcessor.groupInsert, mapGet]
      · have h1 : (k == tx') = false := beq_eq_false_iff_ne.mpr (Ne.symm h)
        simp [TokenProcessor.groupInsert, mapGet, h1, h]
    · have h1 : (k == tx) = false := beq_eq_false_iff_ne.mpr hk
      by_cases h2 : k = tx'
      · subst h2
        simp [TokenProcessor.groupInsert, mapGet, h1, hk]
      · have h4 : (k == tx') = false := beq_eq_false_iff_ne.mpr h2
        simp [TokenProcessor.groupInsert, mapGet, h1, h4, ih]

theorem keys_groupInsert (m : List (String × List Log)) (tx : String)
    (l : Log) :
    (TokenProcessor.groupInsert m tx l).map Prod.fst =
      if (m.map Prod.fst).contains tx then m.map Prod.fst
      else m.map Prod.fst ++ [tx] := by
  induction m with
  | nil => simp [TokenProcessor.groupInsert]
  | cons p rest ih =>
    obtain ⟨k, ls⟩ := p
    by_cases hk : k = tx
    · subst hk; simp [TokenProcessor.groupInsert]
    · have h1 : (k == tx) = false := beq_eq_false_iff_ne.mpr hk
      have h5 : (tx == k) = false := beq_eq_false_iff_ne.mpr (Ne.symm hk)
      by_cases h2 : (rest.map Prod.fst).contains tx = true
      · simp only [TokenProcessor.groupInsert, h1, Bool.false_eq_true, if_false,
          List.map_cons, List.contains_cons, ih, h5, Bool.false_or, h2, if_true]
      · rw [Bool.not_eq_true] at h2
        simp only [TokenProcessor.groupInsert, h1, Bool.false_eq_true, if_false,
          List.map_cons, List.contains_cons, ih, h5, Bool.false_or, h2,
          List.cons_append]

theorem contains_keys_groupInsert (m : List (String × List Log)) (tx : String)
    (l : Log) (tx' : String) :
    ((TokenProcessor.groupInsert m tx l).map Prod.fst).contains tx' =
      ((m.map Prod.fst).contains tx' || tx == tx') := by
  have hcomm : ∀ a b : String, (a == b) = (b == a) := by
    intro a b
    by_cases he : a = b
    · subst he; rfl
    · rw [beq_eq_false_iff_ne.mpr he, beq_eq_false_iff_ne.mpr (Ne.symm he)]
  rw [keys_groupInsert]
  by_cases h : (m.map Prod.fst).contains tx = true
  · simp only [h, if_true]
    by_cases h2 : tx = tx'
    · subst h2
      simp only [h, beq_self_eq_true, Bool.or_true]
    · rw [beq_eq_false_iff_ne.mpr h2, Bool.or_false]
  · rw [Bool.not_eq_true] at h
    simp only [h, Bool.false_eq_true, if_false, List.contains_eq_any_beq,
      List.any_append, List.any_cons, List.any_nil, Bool.or_false]
    rw [hcomm tx' tx]

theorem nodup_keys_groupInsert (m : List (String × List Log)) (tx : String)
    (l : Log) (h : (m.map Prod.fst).Nodup) :
    ((TokenProcessor.groupInsert m tx l).map Prod.fst).Nodup := by
  rw [keys_groupInsert]
  by_cases hc : (m.map Prod.fst).contains tx = true
  · simp only [hc, if_true]
    exact h
  · rw [Bool.not_eq_true] at hc
    have hnm : tx ∉ m.map Prod.fst := by simpa using hc
    simp only [hc, Bool.false_eq_true, if_false]
    simp [List.nodup_append, h, hnm]

theorem group_foldl_lookup (logs : List Log) :
    ∀ (m : List (String × List Log)) (tx : String),
      (mapGet (logs.foldl
          (fun m l => TokenProcessor.groupInsert m l.transactionHash l) m)
        tx).getD []
      = (mapGet m tx).getD [] ++
          logs.filter (fun l => l.transactionHash == tx) := by
  induction logs with
  | nil => intro m tx; simp
  | cons l ls ih =>
    intro m tx
    rw [List.foldl_cons, ih, mapGet_groupInsert]
    by_cases h : tx = l.transactionHash
    · have hb : (l.transactionHash == tx) = true := by
        rw [h]; exact beq_self_eq_true _
      simp [h, List.filter_cons, hb]
    · have hb : (l.transactionHash == tx) = false :=
        beq_eq_false_iff_ne.mpr (Ne.symm h)
      simp [h, List.filter_cons, hb]

theorem group_foldl_keys_contains (logs : List Log) :
    ∀ (m : List (String × List Log)) (tx : String),
      ((logs.foldl
          (fun m l => TokenProcessor.groupInsert m l.transactionHash l) m).map
        Prod.fst).contains tx
      = ((m.map Prod.fst).contains tx ||
          logs.any (fun l => l.transactionHash == tx)) := by
  induction logs with
  | nil => intro m tx; simp
  | cons l ls ih =>
    intro m tx
    rw [List.foldl_cons, ih, contains_keys_groupInsert, List.any_cons,
      Bool.or_assoc]

theorem group_foldl_keys_nodup (logs : List Log) :
    ∀ (m : List (String × List Log)), (m.map Prod.fst).Nodup →
      ((logs.foldl
          (fun m l => TokenProcessor.groupInsert m l.transactionHash l) m).map
        Prod.fst).Nodup := by
  induction logs with
  | nil => intro m h; exact h
  | cons l ls ih =>
    intro m h
    rw [List.foldl_cons]
    exact ih _ (nodup_keys_groupInsert m l.transactionHash l h)

/-- C8: `groupLogsByTransaction` is total and order-preserving: the
group keys (transaction ids) are free of duplicates, every input log's
transaction id has a group, and the group of any transaction id is
exactly the input filtered to that id — so each log lands in exactly one
group (the one keyed by its transaction id), within each group the logs
keep their original relative order, and no log is duplicated or
dropped. -/
theorem c8_group_by_transaction_total_order_preserving (logs : List Log) :
    ((TokenProcessor.groupLogsByTransaction logs).map Prod.fst).Nodup ∧
    (∀ l ∈ logs,
      ((TokenProcessor.groupLogsByTransaction logs).map Prod.fst).contains
        l.transactionHash = true) ∧
    (∀ tx, (mapGet (TokenProcessor.groupLogsByTransaction logs) tx).getD []
      = logs.filter (fun l => l.transactionHash == tx)) := by
  refine ⟨?_, ?_, ?_⟩
  · exact group_foldl_keys_nodup logs [] (by simp)
  · intro l hl
    rw [TokenProcessor.groupLogsByTransaction, group_foldl_keys_contains]
    have : logs.any (fun l' => l'.transactionHash == l.transactionHash)
        = true := by
      rw [List.any_eq_true]
      exact ⟨l, hl, beq_self_eq_true l.transactionHash⟩
    rw [this, Bool.or_true]
  · intro tx
    rw [TokenProcessor.groupLogsByTransaction, group_foldl_lookup]
    rfl

theorem c8_witness :
    ((TokenProcessor.groupLogsByTransaction
      [ { address := "0xa", transactionHash := "0xt1", blockNumber := 1,
          logIndex := 0,
          args := { from' := none, to' := none, value := none } }
      , { address := "0xb", transactionHash := "0xt2", blockNumber := 1,
          logIndex := 1,
          args := { from' := none, to' := none, value := none } }
      , { address := "0xc", transactionHash := "0xt1", blockNumber := 1,
          logIndex := 2,
          args := { from' := none, to' := none, value := none } } ]).map
      Prod.fst).contains "0xt1" = true ∧
    (mapGet (TokenProcessor.groupLogsByTransaction
      [ { address := "0xa", transactionHash := "0xt1", blockNumber := 1,
          logIndex := 0,
          args := { from' := none, to' := none, value := none } }
      , { address := "0xb", transactionHash := "0xt2", blockNumber := 1,
          logIndex := 1,
          args := { from' := none, to' := none, value := none } }
      , { address := "0xc", transactionHash := "0xt1", blockNumber := 1,
          logIndex := 2,
          args := { from' := none, to' := none, value := none } } ])
      "0xt1").getD []
      = [ { address := "0xa", transactionHash := "0xt1", blockNumber := 1,
            logIndex := 0,
            args := { from' := none, to' := none, value := none } }
        , { address := "0xc", transactionHash := "0xt1", blockNumber := 1,
            logIndex := 2,
            args := { from' := none, to' := none, value := none } } ] := by
  constructor
  · exact (c8_group_by_transaction_total_order_preserving
      [ { address := "0xa", transactionHash := "0xt1", blockNumber := 1,
          logIndex := 0,
          args := { from' := none, to' := none, value := none } }
      , { address := "0xb", transactionHash := "0xt2", blockNumber := 1,
          logIndex := 1,
          args := { from' := none, to' := none, value := none } }
      , { address := "0xc", transactionHash := "0xt1", blockNumber := 1,
          logIndex := 2,
          args := { from' := none, to' := none, value := none } } ]).2.1
      { address := "0xa", transactionHash := "0xt1", blockNumber := 1,
        logIndex := 0,
        args := { from' := none, to' := none, value := none } }
      (List.mem_cons_self _ _)
  · rw [(c8_group_by_transaction_total_order_preserving
      [ { address := "0xa", transactionHash := "0xt1", blockNumber := 1,
          logIndex := 0,
          args := { from' := none, to' := none, value := none } }
      , { address := "0xb", transactionHash := "0xt2", blockNumber := 1,
          logIndex := 1,
          args := { from' := none, to' := none, value := none } }
      , { address := "0xc", transactionHash := "0xt1", blockNumber := 1,
          logIndex := 2,
          args := { from' := none, to' := none, value := none } } ]).2.2 "0xt1"]
    rfl

end FourMeme
